import Mathlib

/-!
Verification of the batch font-subsetting tool (`main.py`).

The program is a thin orchestration layer around an external `fonttools
subset` invocation.  We give a shallow embedding of its four components:

* font discovery (`get_font_files`, a pair of case-sensitive glob scans
  per allowed extension),
* the collection inspector (`get_font_count_in_collection`, which
  classifies the outcome of parsing a file with fontTools and extracts a
  font count from a collection-error message via a regex search),
* the subset invoker (`compress_single_font`, which builds the command
  line, interprets the subprocess outcome and the subsequent size
  reporting), and
* the batch orchestrator (`batch_compress_fonts`, which validates
  preconditions, fans collection files out into per-index jobs and
  tallies counters).

All interactions with the outside world (filesystem existence checks,
directory listings, the fontTools parse, the subprocess run, `getsize`)
are abstracted into an `Env` record; the definitions below mirror the
Python control flow over that record.  Machine strings are modelled by
Lean `String`s operated on through their character lists; Python's
decimal formatting of `int` is modelled by `pyStr`.
-/

/-- Lowercase a string character by character (ASCII case mapping), the
behaviour of Python's `str.lower` on the ASCII strings handled here. -/
def strToLower (s : String) : String := ⟨s.data.map Char.toLower⟩

/-- Uppercase a string character by character (ASCII case mapping), the
behaviour of Python's `str.upper` on the ASCII strings handled here. -/
def strToUpper (s : String) : String := ⟨s.data.map Char.toUpper⟩

/-- Characters of the final path component: everything after the last
`/`, as in `pathlib.Path(p).name` for the paths built by this program. -/
def basenameChars (l : List Char) : List Char :=
  l.foldl (fun acc c => if c = '/' then [] else acc ++ [c]) []

/-- Index of the last `.` in a character list (`str.rfind`). -/
def lastDotPos (l : List Char) : Option Nat :=
  match l.reverse.findIdx? (fun c => c == '.') with
  | none => none
  | some j => some (l.length - 1 - j)

/-- `pathlib.Path(p).suffix`: the extension of the final component,
including the dot; empty when the last dot is leading, trailing or
absent (pathlib's `0 < i < len(name) - 1` condition). -/
def pathSuffix (p : String) : String :=
  let name := basenameChars p.data
  match lastDotPos name with
  | none => ""
  | some i => if 0 < i ∧ i < name.length - 1 then ⟨name.drop i⟩ else ""

/-- `pathlib.Path(p).stem`: the final component with `pathSuffix`
stripped. -/
def pathStem (p : String) : String :=
  let name := basenameChars p.data
  match lastDotPos name with
  | none => ⟨name⟩
  | some i => if 0 < i ∧ i < name.length - 1 then ⟨name.take i⟩ else ⟨name⟩

/-- Numeric value of a decimal digit character. -/
def digitVal (c : Char) : Nat := c.toNat - 48

/-- Value of a big-endian decimal digit string, the behaviour of
Python's `int` on a string of digits. -/
def decVal (l : List Char) : Nat := l.foldl (fun a c => 10 * a + digitVal c) 0

/-- Fuel-driven big-endian decimal digits of `n` (no leading zeros,
`['0']` for zero once the fuel exceeds `n`). -/
def decDigitsAux : Nat → Nat → List Char
  | 0, _ => []
  | fuel + 1, n =>
    if n < 10 then [Nat.digitChar n]
    else decDigitsAux fuel (n / 10) ++ [Nat.digitChar (n % 10)]

/-- Python's `str` on a non-negative integer: its decimal digits. -/
def pyStr (n : Nat) : String := ⟨decDigitsAux (n + 1) n⟩

/-- Outcome of attempting `ttLib.TTFont(font_file)`: a clean parse, the
collection-specific `TTLibFileIsCollectionError` (with its message), or
any other exception. -/
inductive ParseResult where
  | ok
  | collectionError (msg : String)
  | otherError
deriving DecidableEq

/-- The literal part of the regex `between 0 and (\d+)` searched for in
the collection-error message. -/
def rangeLit : List Char := "between 0 and ".data

/-- Whether the regex `between 0 and (\d+)` matches at the head of `s`:
the literal is a prefix and at least one digit follows it. -/
def matchesAt (s : List Char) : Bool :=
  rangeLit.isPrefixOf s && !((s.drop rangeLit.length).takeWhile Char.isDigit).isEmpty

/-- The value of the `(\d+)` group of a match at the head of `s`
(greedy: the maximal digit run after the literal), as parsed by `int`. -/
def extractAt (s : List Char) : Nat :=
  decVal ((s.drop rangeLit.length).takeWhile Char.isDigit)

/-- `re.search(r'between 0 and (\d+)', msg)`: scan left to right for the
first position where the pattern matches and return the group value. -/
def searchRange : List Char → Option Nat
  | [] => none
  | c :: rest =>
    if matchesAt (c :: rest) then some (extractAt (c :: rest))
    else searchRange rest

/-- `get_font_count_in_collection`, as a function of the parse outcome:
1 for a clean single-font parse; `N + 1` when the collection error
message yields `N` under the regex search; 0 when the search fails or
any other exception occurs. -/
def get_font_count_in_collection (pr : ParseResult) : Nat :=
  match pr with
  | ParseResult.ok => 1
  | ParseResult.collectionError msg =>
    match searchRange msg.data with
    | some n => n + 1
    | none => 0
  | ParseResult.otherError => 0

/-- Outcome of `subprocess.run(cmd)` for the external tool: the
executable was not found (`FileNotFoundError`), the process ran and
exited with a return code, or some other exception was raised. -/
inductive RunResult where
  | notFound
  | ran (returncode : Int)
  | otherError
deriving DecidableEq

/-- The outside world as seen by the program: filesystem existence
checks, the `sourceFont` directory listing (in scan order), the
fontTools parse outcome per path, the subprocess outcome per command
line, and `os.path.getsize` per path (`none` models a raised OSError). -/
structure Env where
  file_exists : String → Bool
  listing : List String
  parse : String → ParseResult
  run_subset : List String → RunResult
  getsize : String → Option Nat

/-- The five extensions scanned by `get_font_files`, in code order. -/
def font_ext_list : List String := ["ttf", "otf", "woff", "woff2", "ttc"]

/-- Whether `name` begins with a dot: glob's `*` patterns skip such
dot-entries. -/
def hiddenEntry (name : String) : Bool :=
  match name.data with
  | '.' :: _ => true
  | _ => false

/-- Whether `name` ends with `"." ++ ext`, the non-wildcard part of the
pattern `*.ext`. -/
def ext_matches (ext name : String) : Bool :=
  ("." ++ ext).data.isSuffixOf name.data

/-- `glob.glob(os.path.join(source_dir, "*." + ext))` over a directory
listing: matching names, joined onto the directory, in listing order
(POSIX glob is case-sensitive). -/
def glob_star (listing : List String) (source_dir ext : String) : List String :=
  (listing.filter (fun name => !(hiddenEntry name) && ext_matches ext name)).map
    (fun name => source_dir ++ "/" ++ name)

/-- `get_font_files`: for each allowed extension, the lowercase glob
results then the uppercase glob results, accumulated in order. -/
def get_font_files (listing : List String) (source_dir : String) : List String :=
  font_ext_list.foldl
    (fun acc ext =>
      acc ++ glob_star listing source_dir ext ++ glob_star listing source_dir (strToUpper ext))
    []

/-- The output path computed by `compress_single_font` (lines 78-90):
`<stem>-<index>-subset.ttf` when a collection index is supplied,
`<stem>-subset.ttf` for an indexless `.ttc`, and `<stem>-subset<ext>`
otherwise, with the extension lowercased. -/
def make_output_file (output_dir font_file : String) (font_index : Option Nat) : String :=
  let font_name := pathStem font_file
  let font_ext := strToLower (pathSuffix font_file)
  match font_index with
  | some idx => output_dir ++ "/" ++ font_name ++ "-" ++ pyStr idx ++ "-subset.ttf"
  | none =>
    if font_ext = ".ttc" then output_dir ++ "/" ++ font_name ++ "-subset.ttf"
    else output_dir ++ "/" ++ font_name ++ "-subset" ++ font_ext

/-- The `fonttools subset` command line built by `compress_single_font`,
with the `--font-number` flag appended only when an index is given. -/
def build_cmd (font_file text_file output_file : String) (font_index : Option Nat) : List String :=
  ["fonttools", "subset", font_file,
   "--text-file=" ++ text_file, "--output-file=" ++ output_file]
    ++ (match font_index with
        | some idx => ["--font-number=" ++ pyStr idx]
        | none => [])

/-- `compress_single_font`: precondition checks on the two input files,
then the subprocess run; on exit code 0 the size reporting runs inside
the same `try`, so a failing `getsize` (either file) or a zero-byte
source (ZeroDivisionError in the ratio) is caught by the generic
handler and the function returns `false`; every other exception path
also returns `false`. -/
def compress_single_font (env : Env) (font_file text_file output_dir : String)
    (font_index : Option Nat) : Bool :=
  if env.file_exists font_file = false then false
  else if env.file_exists text_file = false then false
  else
    let output_file := make_output_file output_dir font_file font_index
    match env.run_subset (build_cmd font_file text_file output_file font_index) with
    | RunResult.notFound => false
    | RunResult.otherError => false
    | RunResult.ran code =>
      if code = 0 then
        match env.getsize font_file with
        | none => false
        | some original_size =>
          match env.getsize output_file with
          | none => false
          | some _ => if original_size = 0 then false else true
      else false

/-- The orchestrator's run-local counters, instrumented with the trace
of `(font_file, font_index)` invocations made so far. -/
structure BatchState where
  successful_count : Nat
  failed_count : Nat
  total_fonts_processed : Nat
  jobs : List (String × Option Nat)
deriving DecidableEq

/-- One job's bookkeeping in the batch loop: increment exactly one of
the success/failure counters according to `ok`, increment the processed
total, and record the invocation. -/
def record_job (st : BatchState) (ok : Bool) (job : String × Option Nat) : BatchState :=
  { successful_count := if ok then st.successful_count + 1 else st.successful_count
    failed_count := if ok then st.failed_count else st.failed_count + 1
    total_fonts_processed := st.total_fonts_processed + 1
    jobs := st.jobs ++ [job] }

/-- The per-file body of the batch loop (lines 184-212): a `.ttc`
(case-insensitive) file is inspected and fanned out into one job per
index when the reported count exceeds 1; otherwise — including an
indeterminate count of 0 — the file is processed as a single indexless
job. -/
def process_font (env : Env) (text_file output_dir : String)
    (st : BatchState) (font_file : String) : BatchState :=
  if strToLower (pathSuffix font_file) = ".ttc" then
    let font_count := get_font_count_in_collection (env.parse font_file)
    if 1 < font_count then
      (List.range font_count).foldl
        (fun s font_index =>
          record_job s
            (compress_single_font env font_file text_file output_dir (some font_index))
            (font_file, some font_index))
        st
    else
      record_job st
        (compress_single_font env font_file text_file output_dir none) (font_file, none)
  else
    record_job st
      (compress_single_font env font_file text_file output_dir none) (font_file, none)

/-- How a batch run ended: one of the three precondition aborts, or a
completed pass over the discovered files with its final counters. -/
inductive BatchOutcome where
  | fatalSourceDirMissing
  | fatalTextFileMissing
  | fatalNoFontFiles
  | completed (font_files : List String) (final : BatchState)
deriving DecidableEq

/-- Observable result of `batch_compress_fonts`: the outcome, whether
`os.makedirs(output_dir)` was reached, and the returned boolean. -/
structure BatchRun where
  outcome : BatchOutcome
  output_dir_created : Bool
  returned : Bool
deriving DecidableEq

/-- The counters before any job has run. -/
def initState : BatchState := ⟨0, 0, 0, []⟩

/-- `batch_compress_fonts`: check the source directory and character
file, create the output directory, discover fonts, abort if none,
otherwise fold the per-file body over the discovered files and return
whether at least one job succeeded. -/
def batch_compress_fonts (env : Env) : BatchRun :=
  if env.file_exists "sourceFont" = false then
    ⟨BatchOutcome.fatalSourceDirMissing, false, false⟩
  else if env.file_exists "txt.txt" = false then
    ⟨BatchOutcome.fatalTextFileMissing, false, false⟩
  else
    let font_files := get_font_files env.listing "sourceFont"
    if font_files = [] then ⟨BatchOutcome.fatalNoFontFiles, true, false⟩
    else
      let final := font_files.foldl (process_font env "txt.txt" "targetFont") initState
      ⟨BatchOutcome.completed font_files final, true, decide (0 < final.successful_count)⟩

/-- The invocations attempted by a run: none on the abort paths. -/
def jobs_attempted (r : BatchRun) : List (String × Option Nat) :=
  match r.outcome with
  | BatchOutcome.completed _ fin => fin.jobs
  | _ => []

/-- The success counter reported by a run: zero on the abort paths. -/
def run_success_count (r : BatchRun) : Nat :=
  match r.outcome with
  | BatchOutcome.completed _ fin => fin.successful_count
  | _ => 0

/-- The failure counter reported by a run: zero on the abort paths. -/
def run_failure_count (r : BatchRun) : Nat :=
  match r.outcome with
  | BatchOutcome.completed _ fin => fin.failed_count
  | _ => 0

/-- Whether a character list does not start with a decimal digit (used
to pin down the greedy end of the regex's digit group). -/
def headNotDigit : List Char → Bool
  | [] => true
  | c :: _ => !c.isDigit

/-- The success/failure tally is consistent: the two counters sum to the
processed total, and the total counts one increment per recorded job. -/
def counters_ok (st : BatchState) : Prop :=
  st.successful_count + st.failed_count = st.total_fonts_processed
  ∧ st.total_fonts_processed = st.jobs.length

/-- Number of jobs the per-file loop body runs for one discovered file:
the inspected count for a `.ttc` reporting more than one font, and 1
otherwise. -/
def fanout_count (env : Env) (font_file : String) : Nat :=
  if strToLower (pathSuffix font_file) = ".ttc" then
    let font_count := get_font_count_in_collection (env.parse font_file)
    if 1 < font_count then font_count else 1
  else 1

/-- Total jobs a completed batch runs over its discovered files. -/
def expected_total (env : Env) (files : List String) : Nat :=
  (files.map (fanout_count env)).sum

/-- A name is returned by discovery exactly when some allowed extension
matches it either in its lowercase or in its uppercase spelling. -/
def allowed_ext (name : String) : Bool :=
  font_ext_list.any (fun ext => ext_matches ext name || ext_matches (strToUpper ext) name)

/-- An environment whose fontTools parse reports a two-font collection
and whose tool invocations succeed. -/
def c1_env : Env :=
  { file_exists := fun _ => true
    listing := ["C.ttc"]
    parse := fun _ =>
      ParseResult.collectionError "specify a font number between 0 and 1 (inclusive)"
    run_subset := fun _ => RunResult.ran 0
    getsize := fun _ => some 1000 }

/-- An environment in which a one-file batch completes successfully. -/
def c2_env : Env :=
  { file_exists := fun _ => true
    listing := ["A.ttf"]
    parse := fun _ => ParseResult.ok
    run_subset := fun _ => RunResult.ran 0
    getsize := fun _ => some 1000 }

/-- An environment with two discovered fonts in which every subprocess
invocation raises tool-not-found. -/
def c4_env : Env :=
  { file_exists := fun _ => true
    listing := ["a.ttf", "b.ttf"]
    parse := fun _ => ParseResult.ok
    run_subset := fun _ => RunResult.notFound
    getsize := fun _ => some 1000 }

/-- An environment where the tool exits 0 but reading file sizes
afterwards raises. -/
def c5_env : Env :=
  { file_exists := fun _ => true
    listing := ["a.ttf"]
    parse := fun _ => ParseResult.ok
    run_subset := fun _ => RunResult.ran 0
    getsize := fun _ => none }

/-- An environment where the tool exits 0 and size reporting succeeds. -/
def c5w_env : Env :=
  { file_exists := fun _ => true
    listing := ["a.ttf"]
    parse := fun _ => ParseResult.ok
    run_subset := fun _ => RunResult.ran 0
    getsize := fun _ => some 1000 }

/-- An environment whose `.ttc` file fails to parse for a
non-collection reason (inspector reports 0) but subsets fine. -/
def c6_env : Env :=
  { file_exists := fun _ => true
    listing := ["c.ttc"]
    parse := fun _ => ParseResult.otherError
    run_subset := fun _ => RunResult.ran 0
    getsize := fun _ => some 1000 }

/-- An environment with no filesystem entries at all. -/
def c7_env1 : Env :=
  { file_exists := fun _ => false
    listing := []
    parse := fun _ => ParseResult.ok
    run_subset := fun _ => RunResult.notFound
    getsize := fun _ => none }

/-- An environment where only the source directory exists. -/
def c7_env2 : Env :=
  { file_exists := fun p => p == "sourceFont"
    listing := []
    parse := fun _ => ParseResult.ok
    run_subset := fun _ => RunResult.notFound
    getsize := fun _ => none }

/-- An environment where the preconditions hold but the source
directory contains no font files. -/
def c7_env3 : Env :=
  { file_exists := fun _ => true
    listing := ["readme.md"]
    parse := fun _ => ParseResult.ok
    run_subset := fun _ => RunResult.notFound
    getsize := fun _ => none }

/-- An environment with no filesystem entries, for the
missing-source-directory path. -/
def c10_env1 : Env :=
  { file_exists := fun _ => false
    listing := []
    parse := fun _ => ParseResult.ok
    run_subset := fun _ => RunResult.notFound
    getsize := fun _ => none }

/-- An environment where only the source directory exists, for the
missing-character-file path. -/
def c10_env2 : Env :=
  { file_exists := fun p => p == "sourceFont"
    listing := []
    parse := fun _ => ParseResult.ok
    run_subset := fun _ => RunResult.notFound
    getsize := fun _ => none }

/-- An environment whose preconditions hold but whose source directory
holds no font files, for the zero-files path. -/
def c10_env3 : Env :=
  { file_exists := fun _ => true
    listing := ["readme.md"]
    parse := fun _ => ParseResult.ok
    run_subset := fun _ => RunResult.notFound
    getsize := fun _ => none }

theorem digitVal_digitChar {d : Nat} (h : d < 10) : digitVal (Nat.digitChar d) = d := by
  interval_cases d <;> rfl

theorem isDigit_digitChar {d : Nat} (h : d < 10) : (Nat.digitChar d).isDigit = true := by
  interval_cases d <;> decide

theorem foldl_decDigitsAux :
    ∀ (fuel n a : Nat), n < fuel →
      (decDigitsAux fuel n).foldl (fun a c => 10 * a + digitVal c) a
        = a * 10 ^ (decDigitsAux fuel n).length + n
  | 0, n, _, h => absurd h (by omega)
  | fuel + 1, n, a, h => by
    by_cases h10 : n < 10
    · simp only [decDigitsAux, if_pos h10, List.foldl_cons, List.foldl_nil,
        List.length_cons, List.length_nil, digitVal_digitChar h10, pow_one, zero_add]
      omega
    · have h0 : 0 < n := by omega
      have hd : n / 10 < fuel :=
        Nat.lt_of_lt_of_le (Nat.div_lt_self h0 (by omega)) (by omega)

      simp only [decDigitsAux, if_neg h10, List.foldl_append, List.length_append,
        List.foldl_cons, List.foldl_nil, List.length_cons, List.length_nil]
      rw [foldl_decDigitsAux fuel (n / 10) a hd,
        digitVal_digitChar (Nat.mod_lt n (by omega))]
      rw [show (decDigitsAux fuel (n / 10)).length + (0 + 1)
            = (decDigitsAux fuel (n / 10)).length + 1 by omega,
        pow_succ, ← mul_assoc]
      generalize a * 10 ^ (decDigitsAux fuel (n / 10)).length = m
      omega

theorem decVal_pyStr (n : Nat) : decVal (pyStr n).data = n := by
  have h := foldl_decDigitsAux (n + 1) n 0 (by omega)
  simpa [decVal, pyStr] using h

theorem pyStr_injective : Function.Injective pyStr := by
  intro m n h
  have hm := decVal_pyStr m
  rw [h, decVal_pyStr n] at hm
  exact hm.symm

theorem decDigitsAux_all_digits :
    ∀ (fuel n : Nat), n < fuel → ∀ c ∈ decDigitsAux fuel n, c.isDigit = true
  | 0, n, h => absurd h (by omega)
  | fuel + 1, n, h => by
    by_cases h10 : n < 10
    · simp only [decDigitsAux, if_pos h10, List.mem_singleton]
      intro c hc
      exact hc ▸ isDigit_digitChar h10
    · have h0 : 0 < n := by omega
      have hd : n / 10 < fuel :=
        Nat.lt_of_lt_of_le (Nat.div_lt_self h0 (by omega)) (by omega)
      simp only [decDigitsAux, if_neg h10, List.mem_append, List.mem_singleton]
      intro c hc
      rcases hc with hc | hc
      · exact decDigitsAux_all_digits fuel (n / 10) hd c hc
      · exact hc ▸ isDigit_digitChar (Nat.mod_lt n (by omega))

theorem decDigitsAux_ne_nil (fuel n : Nat) (h : n < fuel) : decDigitsAux fuel n ≠ [] := by
  cases fuel with
  | zero => omega
  | succ fuel =>
    by_cases h10 : n < 10
    · simp [decDigitsAux, h10]
    · simp [decDigitsAux, h10]

theorem takeWhile_isDigit_append (l r : List Char)
    (hl : ∀ c ∈ l, c.isDigit = true) (hr : headNotDigit r = true) :
    (l ++ r).takeWhile Char.isDigit = l := by
  induction l with
  | nil =>
    cases r with
    | nil => rfl
    | cons c cs =>
      have hc : c.isDigit = false := by
        simpa [headNotDigit] using hr
      simp [List.takeWhile_cons, hc]
  | cons c cs ih =>
    have hc : c.isDigit = true := hl c (by simp)
    simp only [List.cons_append, List.takeWhile_cons, hc, if_true]
    rw [ih (fun x hx => hl x (by simp [hx]))]

theorem isPrefixOf_self_append : ∀ (l t : List Char), l.isPrefixOf (l ++ t) = true
  | [], _ => by simp [List.isPrefixOf]
  | c :: cs, t => by
    simp only [List.cons_append, List.isPrefixOf, beq_self_eq_true, Bool.true_and]
    exact isPrefixOf_self_append cs t

theorem matchesAt_rangeLit_append (d r : List Char)
    (hd : ∀ c ∈ d, c.isDigit = true) (hne : d ≠ []) (hr : headNotDigit r = true) :
    matchesAt (rangeLit ++ (d ++ r)) = true
      ∧ extractAt (rangeLit ++ (d ++ r)) = decVal d := by
  have hdrop : (rangeLit ++ (d ++ r)).drop rangeLit.length = d ++ r :=
    List.drop_left rangeLit (d ++ r)
  have htake : ((rangeLit ++ (d ++ r)).drop rangeLit.length).takeWhile Char.isDigit = d := by
    rw [hdrop]
    exact takeWhile_isDigit_append d r hd hr
  constructor
  · simp only [matchesAt, isPrefixOf_self_append, htake, Bool.true_and]
    cases d with
    | nil => exact absurd rfl hne
    | cons c cs => rfl
  · simp only [extractAt, htake]

theorem searchRange_eq_of_matchesAt :
    ∀ (s : List Char) (j : Nat),
      (∀ k, k < j → matchesAt (s.drop k) = false) →
      matchesAt (s.drop j) = true →
      searchRange s = some (extractAt (s.drop j))
  | [], j, _, hj => by
    rw [List.drop_nil] at hj
    exact absurd hj (by decide)
  | c :: rest, 0, _, hj => by
    rw [List.drop_zero] at hj
    simp [searchRange, hj]
  | c :: rest, j + 1, hk, hj => by
    have h0 : matchesAt (c :: rest) = false := by
      simpa using hk 0 (by omega)
    rw [List.drop_succ_cons] at hj
    simp only [searchRange, h0, Bool.false_eq_true, if_false]
    exact searchRange_eq_of_matchesAt rest j
      (fun k hkj => by simpa [List.drop_succ_cons] using hk (k + 1) (by omega)) hj

theorem strAppend_cancel_left {a b c : String} (h : a ++ b = a ++ c) : b = c := by
  apply String.ext
  have hd : a.data ++ b.data = a.data ++ c.data := by
    rw [← String.data_append, ← String.data_append, h]
  exact List.append_cancel_left hd

theorem strAppend_cancel_right {a b c : String} (h : a ++ b = c ++ b) : a = c := by
  apply String.ext
  have hd : a.data ++ b.data = c.data ++ b.data := by
    rw [← String.data_append, ← String.data_append, h]
  exact List.append_cancel_right hd

theorem make_output_file_index_injective (output_dir font_file : String) :
    Function.Injective (fun i : Nat => make_output_file output_dir font_file (some i)) := by
  intro i j h
  simp only [make_output_file] at h
  exact pyStr_injective (strAppend_cancel_left (strAppend_cancel_right h))

theorem counters_ok_initState : counters_ok initState := by
  constructor <;> rfl

theorem counters_ok_record_job (st : BatchState) (ok : Bool) (job : String × Option Nat)
    (h : counters_ok st) : counters_ok (record_job st ok job) := by
  obtain ⟨h1, h2⟩ := h
  cases ok <;> simp [counters_ok, record_job] <;> omega

theorem counters_ok_foldl_range (env : Env) (text_file output_dir font_file : String) :
    ∀ (l : List Nat) (st : BatchState), counters_ok st →
      counters_ok (l.foldl
        (fun s font_index =>
          record_job s
            (compress_single_font env font_file text_file output_dir (some font_index))
            (font_file, some font_index))
        st)
  | [], _, h => h
  | _ :: is, _, h =>
    counters_ok_foldl_range env text_file output_dir font_file is _
      (counters_ok_record_job _ _ _ h)

theorem counters_ok_process_font (env : Env) (text_file output_dir : String)
    (st : BatchState) (font_file : String) (h : counters_ok st) :
    counters_ok (process_font env text_file output_dir st font_file) := by
  unfold process_font
  split
  · dsimp only
    split
    · exact counters_ok_foldl_range env text_file output_dir font_file _ st h
    · exact counters_ok_record_job _ _ _ h
  · exact counters_ok_record_job _ _ _ h

theorem counters_ok_foldl_files (env : Env) (text_file output_dir : String) :
    ∀ (files : List String) (st : BatchState), counters_ok st →
      counters_ok (files.foldl (process_font env text_file output_dir) st)
  | [], _, h => h
  | f :: fs, st, h =>
    counters_ok_foldl_files env text_file output_dir fs _
      (counters_ok_process_font env text_file output_dir st f h)

theorem jobs_foldl_range (env : Env) (text_file output_dir font_file : String) :
    ∀ (l : List Nat) (st : BatchState),
      (l.foldl
        (fun s font_index =>
          record_job s
            (compress_single_font env font_file text_file output_dir (some font_index))
            (font_file, some font_index))
        st).jobs
        = st.jobs ++ l.map (fun i => (font_file, some i))
  | [], st => by simp
  | i :: is, st => by
    rw [List.foldl_cons, jobs_foldl_range env text_file output_dir font_file is _]
    simp [record_job]

theorem compress_single_font_notFound (env : Env) (font_file text_file output_dir : String)
    (font_index : Option Nat)
    (htool : ∀ cmd, env.run_subset cmd = RunResult.notFound) :
    compress_single_font env font_file text_file output_dir font_index = false := by
  unfold compress_single_font
  split
  · rfl
  · split
    · rfl
    · dsimp only
      rw [htool]

theorem foldl_range_false_counts (env : Env) (text_file output_dir font_file : String)
    (hc : ∀ i, compress_single_font env font_file text_file output_dir (some i) = false) :
    ∀ (l : List Nat) (st : BatchState),
      l.foldl
        (fun s font_index =>
          record_job s
            (compress_single_font env font_file text_file output_dir (some font_index))
            (font_file, some font_index))
        st
        = ⟨st.successful_count, st.failed_count + l.length,
           st.total_fonts_processed + l.length,
           st.jobs ++ l.map (fun i => (font_file, some i))⟩
  | [], st => by cases st; simp
  | i :: is, st => by
    rw [List.foldl_cons, hc i,
      foldl_range_false_counts env text_file output_dir font_file hc is _]
    simp only [record_job, Bool.false_eq_true, if_false, BatchState.mk.injEq,
      List.length_cons, List.map_cons, List.append_assoc, List.singleton_append]
    exact ⟨trivial, by omega, by omega, trivial⟩

theorem process_font_notFound (env : Env) (text_file output_dir : String)
    (st : BatchState) (font_file : String)
    (htool : ∀ cmd, env.run_subset cmd = RunResult.notFound) :
    process_font env text_file output_dir st font_file
      = ⟨st.successful_count, st.failed_count + fanout_count env font_file,
         st.total_fonts_processed + fanout_count env font_file,
         (process_font env text_file output_dir st font_file).jobs⟩ := by
  have hc : ∀ i : Option Nat,
      compress_single_font env font_file text_file output_dir i = false :=
    fun i => compress_single_font_notFound env font_file text_file output_dir i htool
  unfold process_font fanout_count
  split
  · dsimp only
    split
    · rw [foldl_range_false_counts env text_file output_dir font_file (fun i => hc (some i))]
      simp
    · simp [record_job, hc none]
  · simp [record_job, hc none]

theorem jobs_length_record_job (st : BatchState) (ok : Bool) (job : String × Option Nat) :
    (record_job st ok job).jobs.length = st.jobs.length + 1 := by
  simp [record_job]

theorem foldl_files_notFound (env : Env)
    (htool : ∀ cmd, env.run_subset cmd = RunResult.notFound) :
    ∀ (files : List String) (st : BatchState),
      (files.foldl (process_font env "txt.txt" "targetFont") st).successful_count
          = st.successful_count
        ∧ (files.foldl (process_font env "txt.txt" "targetFont") st).failed_count
          = st.failed_count + expected_total env files
        ∧ (files.foldl (process_font env "txt.txt" "targetFont") st).total_fonts_processed
          = st.total_fonts_processed + expected_total env files
  | [], st => by simp [expected_total]
  | f :: fs, st => by
    obtain ⟨h1, h2, h3⟩ :=
      foldl_files_notFound env htool fs (process_font env "txt.txt" "targetFont" st f)
    have hpf := process_font_notFound env "txt.txt" "targetFont" st f htool
    have hexp : expected_total env (f :: fs)
        = fanout_count env f + expected_total env fs := by
      simp [expected_total]
    rw [List.foldl_cons]
    refine ⟨?_, ?_, ?_⟩
    · rw [h1, hpf]
    · rw [h2, hpf, hexp]
      dsimp only
      omega
    · rw [h3, hpf, hexp]
      dsimp only
      omega

theorem batch_completed_eq (env : Env) (fs : List String) (fin : BatchState)
    (h : (batch_compress_fonts env).outcome = BatchOutcome.completed fs fin) :
    fs = get_font_files env.listing "sourceFont"
      ∧ fin = fs.foldl (process_font env "txt.txt" "targetFont") initState := by
  unfold batch_compress_fonts at h
  split at h
  · simp at h
  · split at h
    · simp at h
    · dsimp only at h
      split at h
      · simp at h
      · simp only [BatchOutcome.completed.injEq] at h
        exact ⟨h.1.symm, by rw [← h.2, h.1]⟩

theorem mem_foldl_append₂ {α β : Type} (g₁ g₂ : α → List β) (l : List α) :
    ∀ (acc : List β) (x : β),
      x ∈ l.foldl (fun a e => a ++ g₁ e ++ g₂ e) acc
        ↔ x ∈ acc ∨ ∃ e ∈ l, x ∈ g₁ e ∨ x ∈ g₂ e := by
  induction l with
  | nil => simp
  | cons e es ih =>
    intro acc x
    rw [List.foldl_cons, ih]
    simp only [List.mem_append, List.mem_cons]
    constructor
    · rintro (((h | h) | h) | ⟨e', he', h⟩)
      · exact Or.inl h
      · exact Or.inr ⟨e, Or.inl rfl, Or.inl h⟩
      · exact Or.inr ⟨e, Or.inl rfl, Or.inr h⟩
      · exact Or.inr ⟨e', Or.inr he', h⟩
    · rintro (h | ⟨e', rfl | he', h⟩)
      · exact Or.inl (Or.inl (Or.inl h))
      · rcases h with h | h
        · exact Or.inl (Or.inl (Or.inr h))
        · exact Or.inl (Or.inr h)
      · exact Or.inr ⟨e', he', h⟩

theorem mem_glob_star (listing : List String) (source_dir ext p : String) :
    p ∈ glob_star listing source_dir ext
      ↔ ∃ name, name ∈ listing ∧ hiddenEntry name = false ∧ ext_matches ext name = true
          ∧ p = source_dir ++ "/" ++ name := by
  simp only [glob_star, List.mem_map, List.mem_filter, Bool.and_eq_true, Bool.not_eq_true']
  constructor
  · rintro ⟨name, ⟨hmem, hh, hx⟩, hp⟩
    exact ⟨name, hmem, hh, hx, hp.symm⟩
  · rintro ⟨name, hmem, hh, hx, hp⟩
    exact ⟨name, ⟨hmem, hh, hx⟩, hp.symm⟩

theorem mem_get_font_files (listing : List String) (source_dir p : String) :
    p ∈ get_font_files listing source_dir
      ↔ ∃ name, name ∈ listing ∧ hiddenEntry name = false ∧ allowed_ext name = true
          ∧ p = source_dir ++ "/" ++ name := by
  rw [get_font_files, mem_foldl_append₂]
  simp only [List.not_mem_nil, false_or, allowed_ext, List.any_eq_true, Bool.or_eq_true,
    mem_glob_star]
  constructor
  · rintro ⟨e, he, ⟨name, hmem, hh, hx, hp⟩ | ⟨name, hmem, hh, hx, hp⟩⟩
    · exact ⟨name, hmem, hh, ⟨e, he, Or.inl hx⟩, hp⟩
    · exact ⟨name, hmem, hh, ⟨e, he, Or.inr hx⟩, hp⟩
  · rintro ⟨name, hmem, hh, ⟨e, he, hx | hx⟩, hp⟩
    · exact ⟨e, he, Or.inl ⟨name, hmem, hh, hx, hp⟩⟩
    · exact ⟨e, he, Or.inr ⟨name, hmem, hh, hx, hp⟩⟩

/-- Claim C1: for a collection (`.ttc`) file whose inspector reports a
count `K > 1`, the per-file orchestration step produces exactly `K`
subsetting jobs for that file, one per index `0..K-1` in order; the
output filenames for distinct indices are pairwise distinct; and each
index `i < K` yields the filename `<stem>-<i>-subset.ttf` under the
output directory. -/
theorem c1_ttc_fanout (env : Env) (text_file output_dir : String) (st : BatchState)
    (font_file : String) (K i : Nat)
    (hext : strToLower (pathSuffix font_file) = ".ttc")
    (hK : get_font_count_in_collection (env.parse font_file) = K)
    (hK1 : 1 < K) (_hi : i < K) :
    (process_font env text_file output_dir st font_file).jobs
        = st.jobs ++ (List.range K).map (fun j => (font_file, some j))
      ∧ ((List.range K).map
          (fun j => make_output_file output_dir font_file (some j))).Nodup
      ∧ make_output_file output_dir font_file (some i)
        = output_dir ++ "/" ++ pathStem font_file ++ "-" ++ pyStr i ++ "-subset.ttf" := by
  refine ⟨?_, ?_, rfl⟩
  · unfold process_font
    rw [if_pos hext]
    dsimp only
    rw [hK, if_pos hK1]
    exact jobs_foldl_range env text_file output_dir font_file (List.range K) st
  · exact List.Nodup.map (make_output_file_index_injective output_dir font_file)
      (List.nodup_range K)

theorem c1_ttc_fanout_witness :
    (process_font c1_env "txt.txt" "targetFont" initState "sourceFont/C.ttc").jobs
        = initState.jobs ++ (List.range 2).map (fun j => ("sourceFont/C.ttc", some j))
      ∧ ((List.range 2).map
          (fun j => make_output_file "targetFont" "sourceFont/C.ttc" (some j))).Nodup
      ∧ make_output_file "targetFont" "sourceFont/C.ttc" (some 1)
        = "targetFont" ++ "/" ++ pathStem "sourceFont/C.ttc" ++ "-" ++ pyStr 1
            ++ "-subset.ttf" :=
  c1_ttc_fanout c1_env "txt.txt" "targetFont" initState "sourceFont/C.ttc" 2 1
    (by decide) (by decide) (by decide) (by decide)

/-- Claim C2: at every point during a batch run — after any single
recorded job, and after processing any list of files from any
consistent state — and in the final state of a completed run, the
success counter plus the failure counter equals the processed total,
and that total counts each recorded job exactly once. -/
theorem c2_counter_invariant (env : Env) (st : BatchState) (ok : Bool)
    (job : String × Option Nat) (files fs : List String) (fin : BatchState)
    (h : counters_ok st)
    (hc : (batch_compress_fonts env).outcome = BatchOutcome.completed fs fin) :
    counters_ok (record_job st ok job)
      ∧ counters_ok (files.foldl (process_font env "txt.txt" "targetFont") st)
      ∧ counters_ok fin := by
  refine ⟨counters_ok_record_job st ok job h,
    counters_ok_foldl_files env "txt.txt" "targetFont" files st h, ?_⟩
  obtain ⟨h1, h2⟩ := batch_completed_eq env fs fin hc
  rw [h2]
  exact counters_ok_foldl_files env "txt.txt" "targetFont" fs initState counters_ok_initState

theorem c2_counter_invariant_witness :
    counters_ok (record_job initState true ("sourceFont/A.ttf", none))
      ∧ counters_ok ([("sourceFont/A.ttf" : String)].foldl
          (process_font c2_env "txt.txt" "targetFont") initState)
      ∧ counters_ok ⟨1, 0, 1, [("sourceFont/A.ttf", none)]⟩ :=
  c2_counter_invariant c2_env initState true ("sourceFont/A.ttf", none)
    ["sourceFont/A.ttf"] ["sourceFont/A.ttf"] ⟨1, 0, 1, [("sourceFont/A.ttf", none)]⟩
    counters_ok_initState (by decide)

/-- Claim C3: the inspector returns 1 when the file parses as a single
non-collection font; it returns `N + 1` when parsing fails with a
collection error whose message contains `between 0 and N` (the leftmost
match of the pattern, with `N` the maximal digit run there); and it
returns 0 for any other parse failure, and also when the range pattern
cannot be extracted from the collection-error message. -/
theorem c3_inspector_count (msg : String) (pre post : List Char) (n : Nat) (m : String)
    (hdec : msg.data = pre ++ (rangeLit ++ ((pyStr n).data ++ post)))
    (hpost : headNotDigit post = true)
    (hpre : ∀ k, k < pre.length → matchesAt (msg.data.drop k) = false)
    (hm : searchRange m.data = none) :
    get_font_count_in_collection ParseResult.ok = 1
      ∧ get_font_count_in_collection (ParseResult.collectionError msg) = n + 1
      ∧ get_font_count_in_collection ParseResult.otherError = 0
      ∧ get_font_count_in_collection (ParseResult.collectionError m) = 0 := by
  have hdigits : ∀ c ∈ (pyStr n).data, c.isDigit = true :=
    fun c hc => decDigitsAux_all_digits (n + 1) n (by omega) c hc
  have hne : (pyStr n).data ≠ [] := decDigitsAux_ne_nil (n + 1) n (by omega)
  obtain ⟨hmatch, hextract⟩ :=
    matchesAt_rangeLit_append ((pyStr n).data) post hdigits hne hpost
  have hdrop : msg.data.drop pre.length = rangeLit ++ ((pyStr n).data ++ post) := by
    rw [hdec]
    exact List.drop_left pre _
  have hsearch : searchRange msg.data = some (extractAt (msg.data.drop pre.length)) :=
    searchRange_eq_of_matchesAt msg.data pre.length hpre (by rw [hdrop]; exact hmatch)
  refine ⟨rfl, ?_, rfl, by simp [get_font_count_in_collection, hm]⟩
  simp only [get_font_count_in_collection, hsearch, hdrop, hextract, decVal_pyStr]

theorem c3_inspector_count_witness :
    get_font_count_in_collection ParseResult.ok = 1
      ∧ get_font_count_in_collection
          (ParseResult.collectionError
            "specify a font number between 0 and 3 (inclusive)") = 3 + 1
      ∧ get_font_count_in_collection ParseResult.otherError = 0
      ∧ get_font_count_in_collection (ParseResult.collectionError "no range here") = 0 :=
  c3_inspector_count "specify a font number between 0 and 3 (inclusive)"
    "specify a font number ".data " (inclusive)".data 3 "no range here"
    (by decide) (by decide) (by decide) (by decide)

/-- Claim C4 counterexample: with the external tool absent (every
invocation raises tool-not-found), the batch does not abort after the
first failed attempt: both discovered files are attempted, each is
recorded as a job and counted as a failure. -/
theorem c4_counterexample :
    c4_env.run_subset
        (build_cmd "sourceFont/a.ttf" "txt.txt"
          (make_output_file "targetFont" "sourceFont/a.ttf" none) none)
      = RunResult.notFound
      ∧ (batch_compress_fonts c4_env).outcome
        = BatchOutcome.completed ["sourceFont/a.ttf", "sourceFont/b.ttf"]
            ⟨0, 2, 2, [("sourceFont/a.ttf", none), ("sourceFont/b.ttf", none)]⟩ :=
  ⟨rfl, by decide⟩

/-- Claim C4 (amended): if the external tool is absent, every
invocation attempt fails with the tool-not-found outcome and is counted
as an ordinary per-job failure; the batch does not abort: a completed
run still processes the full fan-out of every discovered file, ending
with zero successes and every processed job a failure. -/
theorem c4_tool_absent (env : Env) (fs : List String) (fin : BatchState)
    (font_file text_file output_dir : String) (i : Option Nat)
    (htool : ∀ cmd, env.run_subset cmd = RunResult.notFound)
    (hc : (batch_compress_fonts env).outcome = BatchOutcome.completed fs fin) :
    compress_single_font env font_file text_file output_dir i = false
      ∧ fin.successful_count = 0
      ∧ fin.failed_count = fin.total_fonts_processed
      ∧ fin.total_fonts_processed = expected_total env fs := by
  obtain ⟨hfs, hfin⟩ := batch_completed_eq env fs fin hc
  obtain ⟨h1, h2, h3⟩ := foldl_files_notFound env htool fs initState
  refine ⟨compress_single_font_notFound env font_file text_file output_dir i htool,
    ?_, ?_, ?_⟩
  · rw [hfin, h1]
    rfl
  · rw [hfin, h2, h3]
    rfl
  · rw [hfin, h3]
    simp [initState]

theorem c4_tool_absent_witness :
    compress_single_font c4_env "sourceFont/a.ttf" "txt.txt" "targetFont" none = false
      ∧ (⟨0, 2, 2, [("sourceFont/a.ttf", none), ("sourceFont/b.ttf", none)]⟩
          : BatchState).successful_count = 0
      ∧ (⟨0, 2, 2, [("sourceFont/a.ttf", none), ("sourceFont/b.ttf", none)]⟩
          : BatchState).failed_count
        = (⟨0, 2, 2, [("sourceFont/a.ttf", none), ("sourceFont/b.ttf", none)]⟩
            : BatchState).total_fonts_processed
      ∧ (⟨0, 2, 2, [("sourceFont/a.ttf", none), ("sourceFont/b.ttf", none)]⟩
          : BatchState).total_fonts_processed
        = expected_total c4_env ["sourceFont/a.ttf", "sourceFont/b.ttf"] :=
  c4_tool_absent c4_env ["sourceFont/a.ttf", "sourceFont/b.ttf"]
    ⟨0, 2, 2, [("sourceFont/a.ttf", none), ("sourceFont/b.ttf", none)]⟩
    "sourceFont/a.ttf" "txt.txt" "targetFont" none
    (fun _ => rfl) (by decide)

/-- Claim C5 counterexample: an invocation whose external tool exits
with status 0 is nevertheless classified as a failure when the
byte-size reporting that follows cannot read the file sizes (`getsize`
raising is caught by the generic handler): the size computation is not
purely informational. -/
theorem c5_counterexample :
    c5_env.run_subset
        (build_cmd "sourceFont/a.ttf" "txt.txt"
          (make_output_file "targetFont" "sourceFont/a.ttf" none) none)
      = RunResult.ran 0
      ∧ compress_single_font c5_env "sourceFont/a.ttf" "txt.txt" "targetFont" none
        = false :=
  ⟨rfl, rfl⟩

/-- Claim C5 (amended): when the input files pass the precondition
checks and the external tool exits with status 0, the job is classified
a success exactly when the informational size reporting completes: both
`getsize` reads succeed and the source size is nonzero (otherwise the
ZeroDivisionError in the ratio, or the failed read, is caught and the
job is classified a failure). -/
theorem c5_success_iff_sizes (env : Env) (font_file text_file output_dir : String)
    (font_index : Option Nat)
    (hf : env.file_exists font_file = true)
    (ht : env.file_exists text_file = true)
    (hrun : env.run_subset
        (build_cmd font_file text_file
          (make_output_file output_dir font_file font_index) font_index)
      = RunResult.ran 0) :
    compress_single_font env font_file text_file output_dir font_index = true
      ↔ ∃ a, env.getsize font_file = some a ∧ a ≠ 0
          ∧ ∃ b, env.getsize (make_output_file output_dir font_file font_index)
              = some b := by
  unfold compress_single_font
  simp only [hf, Bool.true_eq_false, if_false, ht]
  rw [hrun]
  simp only [if_pos rfl]
  cases hga : env.getsize font_file with
  | none => simp
  | some a =>
    cases hgb : env.getsize (make_output_file output_dir font_file font_index) with
    | none => simp
    | some b =>
      by_cases ha : a = 0
      · simp [ha]
      · simp only [if_neg ha]
        exact ⟨fun _ => ⟨a, rfl, ha, b, rfl⟩, fun _ => rfl⟩

theorem c5_success_iff_sizes_witness :
    compress_single_font c5w_env "sourceFont/a.ttf" "txt.txt" "targetFont" none = true
      ↔ ∃ a, c5w_env.getsize "sourceFont/a.ttf" = some a ∧ a ≠ 0
          ∧ ∃ b, c5w_env.getsize (make_output_file "targetFont" "sourceFont/a.ttf" none)
              = some b :=
  c5_success_iff_sizes c5w_env "sourceFont/a.ttf" "txt.txt" "targetFont" none
    rfl rfl rfl

/-- Claim C6 counterexample: a `.ttc` file whose count detection is
indeterminate (inspector reports 0) is not skipped or failed: the batch
subsets it as an ordinary single indexless job, and — the tool
succeeding — even records it as a success. -/
theorem c6_counterexample :
    get_font_count_in_collection (c6_env.parse "sourceFont/c.ttc") = 0
      ∧ (batch_compress_fonts c6_env).outcome
        = BatchOutcome.completed ["sourceFont/c.ttc"]
            ⟨1, 0, 1, [("sourceFont/c.ttc", none)]⟩ :=
  ⟨rfl, by decide⟩

/-- Claim C6 (amended): a collection file with indeterminate count
(inspector reports 0) is not fanned out; like any reported count of at
most 1 it is processed as one ordinary indexless job — which may
succeed or fail on its own merits — and the batch continues from the
resulting state. -/
theorem c6_indeterminate_single_job (env : Env) (text_file output_dir : String)
    (st : BatchState) (font_file : String)
    (hext : strToLower (pathSuffix font_file) = ".ttc")
    (h0 : get_font_count_in_collection (env.parse font_file) = 0) :
    process_font env text_file output_dir st font_file
      = record_job st (compress_single_font env font_file text_file output_dir none)
          (font_file, none) := by
  unfold process_font
  rw [if_pos hext]
  dsimp only
  rw [h0]
  rfl

theorem c6_indeterminate_single_job_witness :
    process_font c6_env "txt.txt" "targetFont" initState "sourceFont/c.ttc"
      = record_job initState
          (compress_single_font c6_env "sourceFont/c.ttc" "txt.txt" "targetFont" none)
          ("sourceFont/c.ttc", none) :=
  c6_indeterminate_single_job c6_env "txt.txt" "targetFont" initState "sourceFont/c.ttc"
    (by decide) rfl

/-- Claim C7: when the source directory is missing, the character-list
file is missing, or discovery finds no font files, the batch aborts
with a failure result before any job runs: no subsetting invocation is
attempted and the reported counters are zero. -/
theorem c7_fatal_preconditions (env : Env) :
    (env.file_exists "sourceFont" = false →
        batch_compress_fonts env = ⟨BatchOutcome.fatalSourceDirMissing, false, false⟩
          ∧ jobs_attempted (batch_compress_fonts env) = []
          ∧ run_success_count (batch_compress_fonts env) = 0
          ∧ run_failure_count (batch_compress_fonts env) = 0)
      ∧ (env.file_exists "sourceFont" = true → env.file_exists "txt.txt" = false →
          batch_compress_fonts env = ⟨BatchOutcome.fatalTextFileMissing, false, false⟩
            ∧ jobs_attempted (batch_compress_fonts env) = []
            ∧ run_success_count (batch_compress_fonts env) = 0
            ∧ run_failure_count (batch_compress_fonts env) = 0)
      ∧ (env.file_exists "sourceFont" = true → env.file_exists "txt.txt" = true →
          get_font_files env.listing "sourceFont" = [] →
          batch_compress_fonts env = ⟨BatchOutcome.fatalNoFontFiles, true, false⟩
            ∧ jobs_attempted (batch_compress_fonts env) = []
            ∧ run_success_count (batch_compress_fonts env) = 0
            ∧ run_failure_count (batch_compress_fonts env) = 0) := by
  refine ⟨fun h1 => ?_, fun h1 h2 => ?_, fun h1 h2 h3 => ?_⟩
  · have hb : batch_compress_fonts env
        = ⟨BatchOutcome.fatalSourceDirMissing, false, false⟩ := by
      unfold batch_compress_fonts
      rw [if_pos h1]
    exact ⟨hb, by rw [hb]; rfl, by rw [hb]; rfl, by rw [hb]; rfl⟩
  · have hb : batch_compress_fonts env
        = ⟨BatchOutcome.fatalTextFileMissing, false, false⟩ := by
      unfold batch_compress_fonts
      rw [if_neg (by simp [h1]), if_pos h2]
    exact ⟨hb, by rw [hb]; rfl, by rw [hb]; rfl, by rw [hb]; rfl⟩
  · have hb : batch_compress_fonts env
        = ⟨BatchOutcome.fatalNoFontFiles, true, false⟩ := by
      unfold batch_compress_fonts
      rw [if_neg (by simp [h1]), if_neg (by simp [h2])]
      dsimp only
      rw [if_pos h3]
    exact ⟨hb, by rw [hb]; rfl, by rw [hb]; rfl, by rw [hb]; rfl⟩

theorem c7_fatal_preconditions_witness :
    (batch_compress_fonts c7_env1 = ⟨BatchOutcome.fatalSourceDirMissing, false, false⟩
        ∧ jobs_attempted (batch_compress_fonts c7_env1) = []
        ∧ run_success_count (batch_compress_fonts c7_env1) = 0
        ∧ run_failure_count (batch_compress_fonts c7_env1) = 0)
      ∧ (batch_compress_fonts c7_env2 = ⟨BatchOutcome.fatalTextFileMissing, false, false⟩
          ∧ jobs_attempted (batch_compress_fonts c7_env2) = []
          ∧ run_success_count (batch_compress_fonts c7_env2) = 0
          ∧ run_failure_count (batch_compress_fonts c7_env2) = 0)
      ∧ (batch_compress_fonts c7_env3 = ⟨BatchOutcome.fatalNoFontFiles, true, false⟩
          ∧ jobs_attempted (batch_compress_fonts c7_env3) = []
          ∧ run_success_count (batch_compress_fonts c7_env3) = 0
          ∧ run_failure_count (batch_compress_fonts c7_env3) = 0) :=
  ⟨(c7_fatal_preconditions c7_env1).1 rfl,
   (c7_fatal_preconditions c7_env2).2.1 rfl rfl,
   (c7_fatal_preconditions c7_env3).2.2 rfl rfl (by decide)⟩

/-- Claim C8 counterexample: for the non-collection input
`sourceFont/Font.OTF` with no index supplied, the computed output name
lowercases the extension — it is `Font-subset.otf`, which differs from
`Font-subset.OTF`, the name formed with the input's own extension as
the claim states it. -/
theorem c8_counterexample :
    make_output_file "targetFont" "sourceFont/Font.OTF" none
      = "targetFont/Font-subset.otf"
      ∧ ("targetFont/Font-subset.otf" : String) ≠ "targetFont/Font-subset.OTF" :=
  ⟨rfl, by decide⟩

/-- Claim C8 (amended): the output filename is
`<stem>-subset<lowercased ext>` when no collection index is supplied
and the lowercased extension is not `.ttc`; `<stem>-subset.ttf` when no
index is supplied and the lowercased extension is `.ttc`; and
`<stem>-<index>-subset.ttf` whenever an index is supplied — so
collection inputs are always emitted with the non-collection `.ttf`
extension. -/
theorem c8_output_names (output_dir font_file : String) (i : Nat) :
    make_output_file output_dir font_file (some i)
        = output_dir ++ "/" ++ pathStem font_file ++ "-" ++ pyStr i ++ "-subset.ttf"
      ∧ (strToLower (pathSuffix font_file) = ".ttc" →
          make_output_file output_dir font_file none
            = output_dir ++ "/" ++ pathStem font_file ++ "-subset.ttf")
      ∧ (strToLower (pathSuffix font_file) ≠ ".ttc" →
          make_output_file output_dir font_file none
            = output_dir ++ "/" ++ pathStem font_file ++ "-subset"
                ++ strToLower (pathSuffix font_file))
      ∧ ∃ s, make_output_file output_dir font_file (some i) = s ++ ".ttf" := by
  refine ⟨rfl, fun h => ?_, fun h => ?_,
    ⟨output_dir ++ "/" ++ pathStem font_file ++ "-" ++ pyStr i ++ "-subset", ?_⟩⟩
  · simp only [make_output_file, if_pos h]
  · simp only [make_output_file, if_neg h]
  · rw [String.append_assoc]
    rfl

theorem c8_output_names_witness :
    make_output_file "targetFont" "sourceFont/C.ttc" none
        = "targetFont" ++ "/" ++ pathStem "sourceFont/C.ttc" ++ "-subset.ttf"
      ∧ make_output_file "targetFont" "sourceFont/A.WOFF" none
        = "targetFont" ++ "/" ++ pathStem "sourceFont/A.WOFF" ++ "-subset"
            ++ strToLower (pathSuffix "sourceFont/A.WOFF") :=
  ⟨(c8_output_names "targetFont" "sourceFont/C.ttc" 0).2.1 (by decide),
   (c8_output_names "targetFont" "sourceFont/A.WOFF" 0).2.2.1 (by decide)⟩

/-- Claim C9 counterexample: `a.Ttf` carries a mixed-case variant of
the allowed extension `ttf` (it lowercases to `ttf`), yet discovery of
a directory containing exactly that file returns nothing: only the
all-lowercase and all-uppercase spellings are globbed. -/
theorem c9_counterexample :
    get_font_files ["a.Ttf"] "sourceFont" = []
      ∧ strToLower "Ttf" = "ttf" :=
  ⟨rfl, rfl⟩

/-- Claim C9 (amended): discovery returns exactly the names of the
source directory's own listing (no recursion; dot-entries excluded)
whose extension matches an allowed extension in its all-lowercase or
all-uppercase spelling, each joined onto the directory path; other
mixed-case variants are not matched; and an empty list — not an
error — results when nothing matches. -/
theorem c9_discovery (listing : List String) (source_dir p name : String)
    (listing2 : List String)
    (hmem : name ∈ listing) (hh : hiddenEntry name = false)
    (ha : allowed_ext name = true)
    (hnone : ∀ nm ∈ listing2, hiddenEntry nm = false → allowed_ext nm = false) :
    (p ∈ get_font_files listing source_dir
        ↔ ∃ nm, nm ∈ listing ∧ hiddenEntry nm = false ∧ allowed_ext nm = true
            ∧ p = source_dir ++ "/" ++ nm)
      ∧ source_dir ++ "/" ++ name ∈ get_font_files listing source_dir
      ∧ get_font_files listing2 source_dir = [] := by
  refine ⟨mem_get_font_files listing source_dir p,
    (mem_get_font_files listing source_dir _).mpr ⟨name, hmem, hh, ha, rfl⟩, ?_⟩
  rw [List.eq_nil_iff_forall_not_mem]
  intro q hq
  rw [mem_get_font_files] at hq
  obtain ⟨nm, hm, hh2, ha2, _⟩ := hq
  rw [hnone nm hm hh2] at ha2
  exact Bool.false_ne_true ha2

theorem c9_discovery_witness :
    (("sourceFont/A.ttf" : String) ∈ get_font_files ["A.ttf", "b.Otf"] "sourceFont"
        ↔ ∃ nm, nm ∈ ["A.ttf", "b.Otf"] ∧ hiddenEntry nm = false
            ∧ allowed_ext nm = true ∧ "sourceFont/A.ttf" = "sourceFont" ++ "/" ++ nm)
      ∧ ("sourceFont" : String) ++ "/" ++ "A.ttf"
          ∈ get_font_files ["A.ttf", "b.Otf"] "sourceFont"
      ∧ get_font_files ["readme.md"] "sourceFont" = [] :=
  c9_discovery ["A.ttf", "b.Otf"] "sourceFont" "sourceFont/A.ttf" "A.ttf"
    ["readme.md"] (by decide) rfl (by decide) (by decide)

/-- Claim C10: when the source directory and character-list file exist
but no font files are discovered, the run has already created the
output directory before aborting; on the missing-source-directory and
missing-character-list abort paths the output directory is never
created. -/
theorem c10_output_dir_creation (env : Env) :
    (env.file_exists "sourceFont" = true → env.file_exists "txt.txt" = true →
        get_font_files env.listing "sourceFont" = [] →
        (batch_compress_fonts env).outcome = BatchOutcome.fatalNoFontFiles
          ∧ (batch_compress_fonts env).output_dir_created = true)
      ∧ (env.file_exists "sourceFont" = false →
          (batch_compress_fonts env).output_dir_created = false)
      ∧ (env.file_exists "sourceFont" = true → env.file_exists "txt.txt" = false →
          (batch_compress_fonts env).output_dir_created = false) := by
  refine ⟨fun h1 h2 h3 => ?_, fun h1 => ?_, fun h1 h2 => ?_⟩
  · have hb : batch_compress_fonts env = ⟨BatchOutcome.fatalNoFontFiles, true, false⟩ := by
      unfold batch_compress_fonts
      rw [if_neg (by simp [h1]), if_neg (by simp [h2])]
      dsimp only
      rw [if_pos h3]
    rw [hb]
    exact ⟨rfl, rfl⟩
  · unfold batch_compress_fonts
    rw [if_pos h1]
  · unfold batch_compress_fonts
    rw [if_neg (by simp [h1]), if_pos h2]

theorem c10_output_dir_creation_witness :
    ((batch_compress_fonts c10_env3).outcome = BatchOutcome.fatalNoFontFiles
        ∧ (batch_compress_fonts c10_env3).output_dir_created = true)
      ∧ (batch_compress_fonts c10_env1).output_dir_created = false
      ∧ (batch_compress_fonts c10_env2).output_dir_created = false :=
  ⟨(c10_output_dir_creation c10_env3).1 rfl rfl (by decide),
   (c10_output_dir_creation c10_env1).2.1 rfl,
   (c10_output_dir_creation c10_env2).2.2 rfl rfl⟩

example : pathSuffix "sourceFont/A.ttf" = ".ttf" := by decide
example : pathStem "sourceFont/A.ttf" = "A" := by decide
example : strToLower ".TTC" = ".ttc" := by decide
example : pyStr 0 = "0" := by decide
example : pyStr 37 = "37" := by decide
example : searchRange "specify a font number between 0 and 3 (inclusive)".data = some 3 := by decide
example : searchRange "no range here".data = none := by decide
example :
    get_font_count_in_collection
      (ParseResult.collectionError "specify a font number between 0 and 11 (inclusive)") = 12 := by
  decide

example : get_font_files ["A.ttf", "B.TTC", "notes.txt"] "sourceFont"
    = ["sourceFont/A.ttf", "sourceFont/B.TTC"] := by decide

example : make_output_file "targetFont" "sourceFont/B.ttc" (some 2)
    = "targetFont/B-2-subset.ttf" := by decide

example :
    batch_compress_fonts
      { file_exists := fun _ => true
        listing := ["A.ttf"]
        parse := fun _ => ParseResult.ok
        run_subset := fun _ => RunResult.ran 0
        getsize := fun _ => some 1000 }
    = ⟨BatchOutcome.completed ["sourceFont/A.ttf"] ⟨1, 0, 1, [("sourceFont/A.ttf", none)]⟩,
       true, true⟩ := by decide
